import Mathlib

/-!
Shallow embedding of the TrueTag backend (FastAPI + SQLAlchemy) and proofs
about its tag lifecycle, verification, authentication and catalog workflows.

Each definition mirrors one route handler in src/backend/app_package/routers.
The database session is modelled as an explicit record of table rows; a
handler takes the state and returns the committed successor state together
with an Except value standing for either the JSON response or the raised
HTTPException (status code + detail).  Nondeterministic inputs of a handler
(generated UUID codes, secrets tokens, fresh surrogate ids, wall-clock time,
the outcome of the external blockchain call) are passed as parameters.
-/

namespace TrueTag

/-- Row of the users table (models/user.py). -/
structure User where
  id : Nat
  email : String
  password : String
  role : String
  name : Option String
deriving DecidableEq

/-- Row of the products table (models/product.py); meta_data is elided. -/
structure Product where
  id : Nat
  name : String
  description : Option String
  manufacturer_id : Nat
  category : String
  image_url : String
  status : String
deriving DecidableEq

/-- Row of the tags table (models/tag.py). -/
structure Tag where
  id : Nat
  tag_code : String
  token_id : String
  blockchain_tx_hash : Option String
  status : String
  product_id : Option Nat
  batch_id : Nat
deriving DecidableEq

/-- Row of the batches table (models/batch.py). -/
structure Batch where
  id : Nat
  product_id : Option Nat
  manufacturer_id : Nat
  count : Nat
  status : String
  mint_type : String
  blockchain_tx_hash : Option String
deriving DecidableEq

/-- Row of the scans table (models/scan.py); timestamp is elided. -/
structure Scan where
  id : Nat
  tag_id : Nat
  user_id : Option Nat
  location : Option String
  verification_result : String
deriving DecidableEq

/-- Row of the password_reset_tokens table (models/password_reset_token.py).
Time is modelled as Nat seconds. -/
structure PasswordResetToken where
  id : Nat
  user_id : Nat
  token : String
  expires_at : Nat
deriving DecidableEq

/-- The committed database state: one list of rows per table. -/
structure DB where
  users : List User
  products : List Product
  tags : List Tag
  batches : List Batch
  scans : List Scan
  resetTokens : List PasswordResetToken
deriving DecidableEq

/-- A raised HTTPException: status code and detail message. -/
structure ApiError where
  status_code : Nat
  detail : String
deriving DecidableEq

/-- Request body of POST /auth/register (schemas/user.py UserCreate).
The schema accepts a role field, defaulted to manufacturer. -/
structure UserCreate where
  email : String
  name : Option String
  role : String
  password : String
deriving DecidableEq

/-- POST /auth/register (routers/auth.py register_user).
hash stands for utils.hash_password, newId for the generated surrogate key.
The handler ignores user_in.role and stores the fixed role manufacturer. -/
def register_user (user_in : UserCreate) (hash : String → String) (newId : Nat)
    (db : DB) : DB × Except ApiError User :=
  match db.users.find? (fun u => u.email == user_in.email) with
  | some _ => (db, .error ⟨400, "Email already registered"⟩)
  | none =>
      let user : User :=
        { id := newId, email := user_in.email, password := hash user_in.password,
          role := "manufacturer", name := user_in.name }
      ({ db with users := db.users ++ [user] }, .ok user)

/-- POST /auth/password-reset-request (routers/auth.py request_password_reset).
token stands for the secrets.token_urlsafe value, now for the current time;
the expiry window is one hour (3600 seconds).  Both branches return the same
generic 202 body. -/
def request_password_reset (email : String) (token : String) (newId now : Nat)
    (db : DB) : DB × (Nat × String) :=
  match db.users.find? (fun u => u.email == email) with
  | none => (db, (202, "If an account exists, a reset link will be sent"))
  | some user =>
      let record : PasswordResetToken :=
        { id := newId, user_id := user.id, token := token, expires_at := now + 3600 }
      ({ db with resetTokens := db.resetTokens ++ [record] },
       (202, "If an account exists, a reset link will be sent"))

/-- POST /auth/password-reset (routers/auth.py reset_password).
The update of the found user row and the delete of the found token row act
by primary key, hence the maps guarded by id equality. -/
def reset_password (token new_password : String) (now : Nat)
    (hash : String → String) (db : DB) : DB × Except ApiError String :=
  match db.resetTokens.find? (fun t => t.token == token) with
  | none => (db, .error ⟨400, "Invalid or expired token"⟩)
  | some token_rec =>
      if token_rec.expires_at < now then
        (db, .error ⟨400, "Invalid or expired token"⟩)
      else
        match db.users.find? (fun u => u.id == token_rec.user_id) with
        | none => (db, .error ⟨400, "Associated user not found"⟩)
        | some user =>
            let users := db.users.map (fun u =>
              if u.id == user.id then { u with password := hash new_password } else u)
            let tokens := db.resetTokens.filter (fun t => !(t.id == token_rec.id))
            ({ db with users := users, resetTokens := tokens },
             .ok "Password reset successfully")

/-- Response of POST /tags/generate (schemas BatchAssignmentResponse). -/
structure BatchAssignmentResponse where
  message : String
  assigned_tag_codes : List String
deriving DecidableEq

/-- POST /tags/generate (routers/tags.py assign_tags_to_product).
Selects the first count unused tags, fails with 400 when fewer exist, and
otherwise bulk-updates exactly the rows whose tag_code is among the selected
codes (tag_code carries a unique constraint). -/
def assign_tags_to_product (product_id count : Nat) (current_user : User)
    (db : DB) : DB × Except ApiError BatchAssignmentResponse :=
  if current_user.role ≠ "manufacturer" then
    (db, .error ⟨403, "Only manufacturers can generate tags."⟩)
  else
    match db.products.find? (fun p => p.id == product_id && p.manufacturer_id == current_user.id) with
    | none => (db, .error ⟨404, "Product not found or not owned by manufacturer."⟩)
    | some product =>
        let available_tags := (db.tags.filter (fun t => t.status == "unused")).take count
        if available_tags.length < count then
          (db, .error ⟨400, "Not enough tags available."⟩)
        else
          let assigned_tag_codes := available_tags.map Tag.tag_code
          let newTags := db.tags.map (fun t =>
            if assigned_tag_codes.contains t.tag_code then
              { t with product_id := some product.id, status := "active" }
            else t)
          ({ db with tags := newTags },
           .ok { message := "Successfully assigned tags to product.",
                 assigned_tag_codes := assigned_tag_codes })

/-- Request body of the mint endpoints (schemas TagGenerationRequest). -/
structure TagGenerationRequest where
  count : Nat
  mint_type : String
  product_id : Option Nat
deriving DecidableEq

/-- POST /tags/mint/warehouse (routers/tags.py mint_warehouse_tags).
gen_code i stands for the i-th generated uuid4 tag code and gen_token i for
the uuid4 inside the token_id; batch_id and first_tag_id are the fresh
surrogate keys; mint_result is the outcome of the external
blockchain_service.mint_warehouse_batch call (ok tx_hash, or error message
when it raises).  On the exception path the handler rolls the session back
(undoing the flushed batch insert), assigns status failed to the now
detached batch object without committing, and raises 500: the committed
state is therefore the original db. -/
def mint_warehouse_tags (request : TagGenerationRequest) (current_user : User)
    (gen_code gen_token : Nat → String) (batch_id first_tag_id : Nat)
    (mint_result : Except String String) (db : DB) : DB × Except ApiError Batch :=
  if request.mint_type ≠ "warehouse" then
    (db, .error ⟨400, "mint_type must be warehouse for this endpoint."⟩)
  else
    match mint_result with
    | .ok tx_hash =>
        let batch : Batch :=
          { id := batch_id, product_id := none, manufacturer_id := current_user.id,
            count := request.count, status := "minted", mint_type := "warehouse",
            blockchain_tx_hash := some tx_hash }
        let tags := (List.range request.count).map (fun i =>
          { id := first_tag_id + i, tag_code := gen_code i,
            token_id := "TOKEN_" ++ gen_token i, blockchain_tx_hash := some tx_hash,
            status := "unused", product_id := none, batch_id := batch_id : Tag })
        ({ db with batches := db.batches ++ [batch], tags := db.tags ++ tags },
         .ok batch)
    | .error e => (db, .error ⟨500, "Minting failed: " ++ e⟩)

/-- POST /tags/mint/direct (routers/tags.py mint_direct_tags).
Same shape as the warehouse mint, but a product id is required, the tags are
created with status active and the product pre-linked, and the external call
is blockchain_service.mint_tags_in_bulk. -/
def mint_direct_tags (request : TagGenerationRequest) (current_user : User)
    (gen_code gen_token : Nat → String) (batch_id first_tag_id : Nat)
    (mint_result : Except String String) (db : DB) : DB × Except ApiError Batch :=
  if request.mint_type ≠ "direct" || request.product_id.isNone then
    (db, .error ⟨400, "mint_type must be direct and product_id is required."⟩)
  else
    match mint_result with
    | .ok tx_hash =>
        let batch : Batch :=
          { id := batch_id, product_id := request.product_id,
            manufacturer_id := current_user.id, count := request.count,
            status := "minted", mint_type := "direct",
            blockchain_tx_hash := some tx_hash }
        let tags := (List.range request.count).map (fun i =>
          { id := first_tag_id + i, tag_code := gen_code i,
            token_id := "TOKEN_" ++ gen_token i, blockchain_tx_hash := some tx_hash,
            status := "active", product_id := request.product_id,
            batch_id := batch_id : Tag })
        ({ db with batches := db.batches ++ [batch], tags := db.tags ++ tags },
         .ok batch)
    | .error e => (db, .error ⟨500, "Direct minting failed: " ++ e⟩)

/-- Response of the verification endpoints (schemas VerificationResponse);
only the fields the claims mention are kept. -/
structure VerificationResponse where
  tag_id : Nat
  tag_code : String
  verification_result : String
  product_name : String
deriving DecidableEq

/-- The joinedload of a tag with its product: resolve product_id against the
products table. -/
def tagProduct (db : DB) (t : Tag) : Option Product :=
  t.product_id.bind (fun pid => db.products.find? (fun p => p.id == pid))

/-- GET /verify/tag_code (routers/verify.py verify_tag, the public
duplicate-aware variant).  scanId is the fresh surrogate key of the new Scan
row.  The Scan row is committed before the response is built, so when the
tag has no linked product the 500 error is raised on a state that already
holds the new row. -/
def verify_tag_public (tag_code : String) (location : Option String)
    (scanId : Nat) (db : DB) : DB × Except ApiError VerificationResponse :=
  match db.tags.find? (fun t => t.tag_code == tag_code) with
  | none => (db, .error ⟨404, "Tag not found"⟩)
  | some tag =>
      let existing_scan := db.scans.find? (fun s => s.tag_id == tag.id)
      let verification_result :=
        if existing_scan.isNone && tag.status == "active" then "valid"
        else if existing_scan.isSome && tag.status == "active" then "duplicate"
        else "invalid"
      let scan : Scan :=
        { id := scanId, tag_id := tag.id, user_id := none, location := location,
          verification_result := verification_result }
      let committed := { db with scans := db.scans ++ [scan] }
      match tagProduct db tag with
      | none => (committed, .error ⟨500, "Associated product not found."⟩)
      | some product =>
          (committed,
           .ok { tag_id := tag.id, tag_code := tag.tag_code,
                 verification_result := verification_result,
                 product_name := product.name })

/-- Outcome of the on-chain ownership cross-check in the authenticated
verification endpoint: the module-level contract may be none, the ownerOf
call may agree or disagree with the admin wallet, raise a
ContractLogicError, or raise any other exception. -/
inductive ChainCheck where
  | noContract
  | ownerMatch
  | ownerMismatch
  | contractLogicError
  | otherError
deriving DecidableEq

/-- GET /tags/verify/tag_code (routers/tags.py verify_tag, the on-chain
variant).  After the Scan row is committed the handler reads
tag.product.name with no none-guard: a tag with no linked product makes the
response construction raise (an unhandled AttributeError, surfaced by the
framework as a 500), on a state that already holds the new Scan row. -/
def verify_tag_auth (tag_code : String) (location : Option String)
    (scanId : Nat) (chain : ChainCheck) (db : DB) :
    DB × Except ApiError VerificationResponse :=
  match db.tags.find? (fun t => t.tag_code == tag_code) with
  | none => (db, .error ⟨404, "Tag not found."⟩)
  | some tag =>
      let dbStatus :=
        if tag.status == "unused" || tag.status == "flagged" then "invalid"
        else "valid"
      let verification_result :=
        if dbStatus == "valid" then
          match chain with
          | .noContract => "valid"
          | .ownerMatch => "valid"
          | .ownerMismatch => "tampered"
          | .contractLogicError => "invalid"
          | .otherError => "blockchain_error"
        else dbStatus
      let scan : Scan :=
        { id := scanId, tag_id := tag.id, user_id := none, location := location,
          verification_result := verification_result }
      let committed := { db with scans := db.scans ++ [scan] }
      match tagProduct db tag with
      | none => (committed, .error ⟨500, "AttributeError: tag.product is None"⟩)
      | some product =>
          (committed,
           .ok { tag_id := tag.id, tag_code := tag.tag_code,
                 verification_result := verification_result,
                 product_name := product.name })

/-- GET /products (routers/products.py list_products).  Filters to the
products of current_user; status and category filters apply only when
supplied. -/
def list_products (status category : Option String) (current_user : User)
    (db : DB) : DB × Except ApiError (List Product) :=
  if current_user.role ≠ "manufacturer" then
    (db, .error ⟨403, "Only manufacturers can list products"⟩)
  else
    let query := db.products.filter (fun p => p.manufacturer_id == current_user.id)
    let query := match status with
      | some s => query.filter (fun p => p.status == s)
      | none => query
    let query := match category with
      | some c => query.filter (fun p => p.category == c)
      | none => query
    (db, .ok query)

/-- GET /products/id (routers/products.py get_product). -/
def get_product (id : Nat) (current_user : User) (db : DB) :
    DB × Except ApiError Product :=
  if current_user.role ≠ "manufacturer" then
    (db, .error ⟨403, "Only manufacturers can view products"⟩)
  else
    match db.products.find? (fun p => p.id == id && p.manufacturer_id == current_user.id) with
    | none => (db, .error ⟨404, "Product not found or not owned"⟩)
    | some product => (db, .ok product)

/-- The per-row effect of the soft delete: the row with the deleted
products primary key gets status inactive, all other rows are untouched. -/
def softDeleteRow (pid : Nat) (p : Product) : Product :=
  if p.id == pid then { p with status := "inactive" } else p

/-- DELETE /products/id (routers/products.py delete_product).  Soft delete:
the found row (updated by primary key) gets status inactive. -/
def delete_product (id : Nat) (current_user : User) (db : DB) :
    DB × Except ApiError Unit :=
  if current_user.role ≠ "manufacturer" then
    (db, .error ⟨403, "Only manufacturers can delete products"⟩)
  else
    match db.products.find? (fun p => p.id == id && p.manufacturer_id == current_user.id) with
    | none => (db, .error ⟨404, "Product not found or not owned"⟩)
    | some product =>
        ({ db with products := db.products.map (softDeleteRow product.id) }, .ok ())

/-! Concrete fixtures used to instantiate the theorems below. -/

/-- A stand-in for utils.hash_password. -/
def hashW : String → String := fun s => s ++ "#hashed"

/-- A manufacturer account. -/
def userM : User :=
  { id := 1, email := "m@truetag.io", password := "pw#hashed",
    role := "manufacturer", name := some "M" }

/-- An active product owned by userM. -/
def prodP : Product :=
  { id := 1, name := "Widget", description := none, manufacturer_id := 1,
    category := "gadgets", image_url := "/static/w.png", status := "active" }

/-- An active tag linked to prodP. -/
def tagActive : Tag :=
  { id := 1, tag_code := "tcode-1", token_id := "TOKEN_a",
    blockchain_tx_hash := some "0xabc", status := "active",
    product_id := some 1, batch_id := 1 }

/-- An unused warehouse-pool tag with no linked product. -/
def tagOrphan : Tag :=
  { id := 2, tag_code := "tcode-2", token_id := "TOKEN_b",
    blockchain_tx_hash := none, status := "unused",
    product_id := none, batch_id := 1 }

/-- A second unused warehouse-pool tag. -/
def tagUnused2 : Tag :=
  { id := 3, tag_code := "tcode-3", token_id := "TOKEN_c",
    blockchain_tx_hash := none, status := "unused",
    product_id := none, batch_id := 1 }

/-- The main concrete database state. -/
def dbMain : DB :=
  { users := [userM], products := [prodP], tags := [tagActive, tagOrphan, tagUnused2],
    batches := [], scans := [], resetTokens := [] }

/-- An unexpired password reset token for userM. -/
def tokR : PasswordResetToken := { id := 1, user_id := 1, token := "rst-1", expires_at := 1000 }

/-- dbMain together with one password reset token. -/
def dbTok : DB := { dbMain with resetTokens := [tokR] }

/-- A soft-deleted product owned by userM. -/
def inactiveProd : Product :=
  { id := 2, name := "Retired", description := none, manufacturer_id := 1,
    category := "gadgets", image_url := "/static/r.png", status := "inactive" }

/-- A database whose only product is soft-deleted. -/
def dbC7 : DB :=
  { users := [userM], products := [inactiveProd], tags := [], batches := [],
    scans := [], resetTokens := [] }

/-- A warehouse mint request for one tag. -/
def warehouseReq : TagGenerationRequest :=
  { count := 1, mint_type := "warehouse", product_id := none }

/-- A direct mint request for one tag of product 1. -/
def directReq : TagGenerationRequest :=
  { count := 1, mint_type := "direct", product_id := some 1 }

/-- A stand-in for the uuid4 tag-code generator. -/
def genCode : Nat → String := fun i => "code-" ++ toString i

/-- A stand-in for the uuid4 inside the token_id. -/
def genTok : Nat → String := fun i => "tok-" ++ toString i

/-! Helper lemmas. -/

theorem find?_eq_some_unique {α : Type} {p : α → Bool} {a : α} :
    ∀ {l : List α}, a ∈ l → p a = true → (∀ b ∈ l, p b = true → b = a) →
    l.find? p = some a := by
  intro l
  induction l with
  | nil => intro h _ _; cases h
  | cons x xs ih =>
      intro hmem hpa huniq
      by_cases hx : p x = true
      · have hxa : x = a := huniq x (List.mem_cons_self x xs) hx
        subst hxa
        simp [List.find?_cons_of_pos _ hx]
      · rw [List.find?_cons_of_neg _ hx]
        rcases List.mem_cons.mp hmem with h | h
        · subst h; exact absurd hpa hx
        · exact ih h hpa (fun b hb hpb => huniq b (List.mem_cons_of_mem _ hb) hpb)

theorem tags_find?_of_mem {db : DB} {t : Tag} {code : String}
    (hmem : t ∈ db.tags) (hcode : t.tag_code = code)
    (hnodup : (db.tags.map Tag.tag_code).Nodup) :
    db.tags.find? (fun x => x.tag_code == code) = some t := by
  apply find?_eq_some_unique hmem (by simp [hcode])
  intro b hb hpb
  have hbc : b.tag_code = t.tag_code := by
    have : b.tag_code = code := by simpa using hpb
    rw [this, hcode]
  exact List.inj_on_of_nodup_map hnodup hb hmem hbc

/-- C5: every successful registration creates a user with role manufacturer,
and the registration outcome is entirely independent of the role value
supplied in the request body: two requests differing only in role produce
identical results. -/
theorem register_role_is_server_assigned (u : UserCreate) (r1 r2 : String)
    (hash : String → String) (newId : Nat) (db : DB) :
    (∀ user, (register_user u hash newId db).2 = .ok user →
       user.role = "manufacturer")
    ∧ register_user { u with role := r1 } hash newId db
        = register_user { u with role := r2 } hash newId db := by
  constructor
  · intro user h
    unfold register_user at h
    cases hfind : db.users.find? (fun x => x.email == u.email) with
    | some w => rw [hfind] at h; simp at h
    | none =>
        rw [hfind] at h
        simp at h
        rw [← h]
  · rfl

/-- C5 witness: a concrete registration that supplies role admin still
creates a manufacturer. -/
theorem register_role_is_server_assigned_witness :
    (User.mk 7 "new@truetag.io" (hashW "s3cret") "manufacturer" none).role
      = "manufacturer" :=
  (register_role_is_server_assigned ⟨"new@truetag.io", none, "admin", "s3cret"⟩
    "admin" "manufacturer" hashW 7 dbMain).1
    (User.mk 7 "new@truetag.io" (hashW "s3cret") "manufacturer" none) rfl

/-- C6: registering with an email that already belongs to an existing user
fails with a 400 Conflict and leaves the store unchanged. -/
theorem register_duplicate_email_conflict (user_in : UserCreate)
    (hash : String → String) (newId : Nat) (db : DB) (u : User)
    (hu : u ∈ db.users) (he : u.email = user_in.email) :
    register_user user_in hash newId db
      = (db, .error ⟨400, "Email already registered"⟩) := by
  unfold register_user
  cases hfind : db.users.find? (fun x => x.email == user_in.email) with
  | some w => rfl
  | none =>
      rw [List.find?_eq_none] at hfind
      exact absurd (by simp [he]) (hfind u hu)

/-- C6 witness: re-registering the email of userM on dbMain fails with 400
and returns the unchanged store. -/
theorem register_duplicate_email_conflict_witness :
    register_user ⟨"m@truetag.io", some "Mallory", "admin", "x"⟩ hashW 9 dbMain
      = (dbMain, .error ⟨400, "Email already registered"⟩) :=
  register_duplicate_email_conflict ⟨"m@truetag.io", some "Mallory", "admin", "x"⟩
    hashW 9 dbMain userM (by decide) rfl

/-- C9: the password-reset request returns the same generic 202 response on
any two stores (in particular whether or not the account exists); when the
account exists exactly one reset token with a one-hour expiry is appended,
and when it does not the store is unchanged. -/
theorem password_reset_request_anti_enumeration (email token : String)
    (newId now : Nat) (db1 db2 : DB) :
    (request_password_reset email token newId now db1).2
        = (request_password_reset email token newId now db2).2
    ∧ (∀ user, db1.users.find? (fun u => u.email == email) = some user →
        (request_password_reset email token newId now db1).1
          = { db1 with resetTokens := db1.resetTokens ++
              [{ id := newId, user_id := user.id, token := token,
                 expires_at := now + 3600 }] })
    ∧ (db1.users.find? (fun u => u.email == email) = none →
        (request_password_reset email token newId now db1).1 = db1) := by
  refine ⟨?_, ?_, ?_⟩
  · unfold request_password_reset
    cases db1.users.find? (fun u => u.email == email) <;>
      cases db2.users.find? (fun u => u.email == email) <;> rfl
  · intro user hfind
    unfold request_password_reset
    rw [hfind]
  · intro hfind
    unfold request_password_reset
    rw [hfind]

/-- C9 witness: on dbMain the request for the existing account appends one
token expiring one hour later, and the generic response equals the one
produced on the empty-user store dbC7 minus its user, here compared against
a store where the account is absent. -/
theorem password_reset_request_anti_enumeration_witness :
    (request_password_reset "m@truetag.io" "rst-9" 5 100 dbMain).1
      = { dbMain with resetTokens := dbMain.resetTokens ++
          [{ id := 5, user_id := 1, token := "rst-9", expires_at := 3700 }] } :=
  (password_reset_request_anti_enumeration "m@truetag.io" "rst-9" 5 100 dbMain
    dbMain).2.1 userM rfl

/-- C1: assigning tags to an owned product is all-or-nothing: with fewer
unused tags than requested the call fails with 400 and the store is
unchanged; otherwise exactly count selected unused tags switch to active
with the product linked, every other row is unchanged, and no tag is ever
assigned beyond the number of currently unused tags. -/
theorem assign_tags_all_or_nothing (product_id count : Nat) (user : User)
    (db : DB) (product : Product)
    (hrole : user.role = "manufacturer")
    (hnodup : (db.tags.map Tag.tag_code).Nodup)
    (hfind : db.products.find? (fun p => p.id == product_id && p.manufacturer_id == user.id)
       = some product) :
    ((db.tags.filter (fun t => t.status == "unused")).length < count →
       assign_tags_to_product product_id count user db
         = (db, .error ⟨400, "Not enough tags available."⟩))
    ∧ (count ≤ (db.tags.filter (fun t => t.status == "unused")).length →
       ∃ codes : List String,
         codes.length = count
         ∧ codes.Nodup
         ∧ (∀ c ∈ codes, ∃ t ∈ db.tags, t.tag_code = c ∧ t.status = "unused")
         ∧ List.Forall₂ (fun t t' =>
             if codes.contains t.tag_code then
               t' = { t with product_id := some product.id, status := "active" }
             else t' = t)
             db.tags (assign_tags_to_product product_id count user db).1.tags
         ∧ (assign_tags_to_product product_id count user db).2
             = .ok { message := "Successfully assigned tags to product.",
                     assigned_tag_codes := codes }) := by
  have hne : ¬ (user.role ≠ "manufacturer") := by simp [hrole]
  constructor
  · intro hlt
    have hlt2 : ((db.tags.filter (fun t => t.status == "unused")).take count).length < count := by
      rw [List.length_take]
      exact lt_of_le_of_lt (Nat.min_le_right _ _) hlt
    unfold assign_tags_to_product
    rw [if_neg hne, hfind]
    simp only [hlt2, if_true, if_pos]
  · intro hge
    have hlen : ((db.tags.filter (fun t => t.status == "unused")).take count).length = count := by
      rw [List.length_take]
      exact Nat.min_eq_left hge
    have hnotlt : ¬ ((db.tags.filter (fun t => t.status == "unused")).take count).length < count := by
      omega
    have hres : assign_tags_to_product product_id count user db
        = ({ db with tags := db.tags.map (fun t =>
              if (((db.tags.filter (fun s => s.status == "unused")).take count).map Tag.tag_code).contains t.tag_code then
                { t with product_id := some product.id, status := "active" }
              else t) },
           .ok { message := "Successfully assigned tags to product.",
                 assigned_tag_codes :=
                   ((db.tags.filter (fun s => s.status == "unused")).take count).map Tag.tag_code }) := by
      unfold assign_tags_to_product
      rw [if_neg hne, hfind]
      simp only [hnotlt, if_false, if_neg]
    refine ⟨((db.tags.filter (fun s => s.status == "unused")).take count).map Tag.tag_code,
      ?_, ?_, ?_, ?_, ?_⟩
    · rw [List.length_map]; exact hlen
    · have hsub : List.Sublist ((db.tags.filter (fun s => s.status == "unused")).take count) db.tags :=
        List.Sublist.trans (List.take_sublist _ _) (List.filter_sublist _)
      exact (List.Sublist.map Tag.tag_code hsub).nodup hnodup
    · intro c hc
      rcases List.mem_map.mp hc with ⟨t, ht, hcode⟩
      have htf := List.take_subset _ _ ht
      exact ⟨t, List.mem_of_mem_filter htf, hcode,
        by simpa using List.of_mem_filter htf⟩
    · rw [hres]
      simp only
      rw [List.forall₂_map_right_iff]
      rw [List.forall₂_same]
      intro t ht
      by_cases hc : ((((db.tags.filter (fun s => s.status == "unused")).take count).map Tag.tag_code).contains t.tag_code) = true
      · rw [if_pos hc, if_pos hc]
      · rw [if_neg hc, if_neg hc]
    · rw [hres]

/-- C1 witness: on dbMain, assigning one tag to product 1 succeeds and
updates exactly one unused tag. -/
theorem assign_tags_all_or_nothing_witness :
    ∃ codes : List String,
      codes.length = 1
      ∧ codes.Nodup
      ∧ (∀ c ∈ codes, ∃ t ∈ dbMain.tags, t.tag_code = c ∧ t.status = "unused")
      ∧ List.Forall₂ (fun t t' =>
          if codes.contains t.tag_code then
            t' = { t with product_id := some prodP.id, status := "active" }
          else t' = t)
          dbMain.tags (assign_tags_to_product 1 1 userM dbMain).1.tags
      ∧ (assign_tags_to_product 1 1 userM dbMain).2
          = .ok { message := "Successfully assigned tags to product.",
                  assigned_tag_codes := codes } :=
  (assign_tags_all_or_nothing 1 1 userM dbMain prodP rfl (by decide) rfl).2
    (by decide)

/-- C3: the public verification endpoint records valid for the first scan of
an active tag, duplicate for every subsequent scan of an active tag, and
invalid for any scan of a non-active tag. -/
theorem verify_public_duplicate_rule (code : String) (loc : Option String)
    (sid : Nat) (db : DB) (t : Tag)
    (hmem : t ∈ db.tags) (hcode : t.tag_code = code)
    (hnodup : (db.tags.map Tag.tag_code).Nodup) :
    (t.status = "active" → (∀ s ∈ db.scans, s.tag_id ≠ t.id) →
       (verify_tag_public code loc sid db).1.scans
         = db.scans ++ [⟨sid, t.id, none, loc, "valid"⟩])
    ∧ (t.status = "active" → ∀ s0 ∈ db.scans, s0.tag_id = t.id →
       (verify_tag_public code loc sid db).1.scans
         = db.scans ++ [⟨sid, t.id, none, loc, "duplicate"⟩])
    ∧ (t.status ≠ "active" →
       (verify_tag_public code loc sid db).1.scans
         = db.scans ++ [⟨sid, t.id, none, loc, "invalid"⟩]) := by
  have hfind := tags_find?_of_mem hmem hcode hnodup
  refine ⟨?_, ?_, ?_⟩
  · intro hact hnos
    have hnone : db.scans.find? (fun s => s.tag_id == t.id) = none :=
      List.find?_eq_none.mpr (fun s hs => by simpa using hnos s hs)
    cases htp : tagProduct db t <;>
      simp [verify_tag_public, hfind, hnone, hact, htp]
  · intro hact s0 hs0 hid
    have hisSome : (db.scans.find? (fun s => s.tag_id == t.id)).isSome :=
      List.find?_isSome.mpr ⟨s0, hs0, by simp [hid]⟩
    obtain ⟨s1, hs1⟩ := Option.isSome_iff_exists.mp hisSome
    cases htp : tagProduct db t <;>
      simp [verify_tag_public, hfind, hs1, hact, htp]
  · intro hstat
    have hb : (t.status == "active") = false := by
      simpa using hstat
    cases hes : db.scans.find? (fun s => s.tag_id == t.id) <;>
      cases htp : tagProduct db t <;>
        simp [verify_tag_public, hfind, hes, hb, htp]

/-- C3 witness: the first public scan of the active tag in dbMain records
valid. -/
theorem verify_public_duplicate_rule_witness :
    (verify_tag_public "tcode-1" none 10 dbMain).1.scans
      = dbMain.scans ++ [⟨10, tagActive.id, none, none, "valid"⟩] :=
  (verify_public_duplicate_rule "tcode-1" none 10 dbMain tagActive (by decide)
    rfl (by decide)).1 rfl (by decide)

/-- C10: for any stored tag whose product_id is null, both verification
endpoints first commit the Scan row with the computed result and then fail
with a 500-class error, so the Scan row persists although the request
errors. -/
theorem verify_orphan_tag_commits_scan_then_500 (code : String)
    (loc : Option String) (sid : Nat) (chain : ChainCheck) (db : DB) (t : Tag)
    (hmem : t ∈ db.tags) (hcode : t.tag_code = code)
    (hnodup : (db.tags.map Tag.tag_code).Nodup)
    (hprod : t.product_id = none) :
    (∃ s : Scan, (verify_tag_public code loc sid db).1.scans = db.scans ++ [s]
       ∧ (verify_tag_public code loc sid db).2
           = .error ⟨500, "Associated product not found."⟩)
    ∧ (∃ s : Scan, (verify_tag_auth code loc sid chain db).1.scans = db.scans ++ [s]
       ∧ (verify_tag_auth code loc sid chain db).2
           = .error ⟨500, "AttributeError: tag.product is None"⟩) := by
  have hfind := tags_find?_of_mem hmem hcode hnodup
  have htp : tagProduct db t = none := by simp [tagProduct, hprod]
  constructor
  · simp only [verify_tag_public, hfind, htp]
    exact ⟨_, rfl, trivial⟩
  · simp only [verify_tag_auth, hfind, htp]
    exact ⟨_, rfl, trivial⟩

/-- C10 witness: scanning the unused pool tag of dbMain through the public
endpoint persists a scan row and fails with 500. -/
theorem verify_orphan_tag_commits_scan_then_500_witness :
    ∃ s : Scan, (verify_tag_public "tcode-2" none 11 dbMain).1.scans
        = dbMain.scans ++ [s]
      ∧ (verify_tag_public "tcode-2" none 11 dbMain).2
          = .error ⟨500, "Associated product not found."⟩ :=
  (verify_orphan_tag_commits_scan_then_500 "tcode-2" none 11 ChainCheck.noContract
    dbMain tagOrphan (by decide) rfl (by decide) rfl).1

/-- C2: evaluated at the failing input (a mint whose external call raises),
both mint handlers roll the session back, which undoes the flushed batch
insert, and the later failed-status assignment on the detached object is
never committed: the committed store is unchanged, so no batch row with
status failed is persisted, against the claimed persistence of a failed
batch.  The success half of the claim does hold: a successful warehouse
mint persists one minted batch and exactly count tag rows referencing it. -/
theorem mint_failure_rolls_back_batch :
    (mint_warehouse_tags warehouseReq userM genCode genTok 1 4 (.error "RPC down") dbMain
       = (dbMain, .error ⟨500, "Minting failed: RPC down"⟩))
    ∧ (mint_direct_tags directReq userM genCode genTok 1 4 (.error "RPC down") dbMain
       = (dbMain, .error ⟨500, "Direct minting failed: RPC down"⟩))
    ∧ dbMain.batches = []
    ∧ (∀ tx : String,
        (mint_warehouse_tags warehouseReq userM genCode genTok 1 4 (.ok tx) dbMain).1.batches
          = [{ id := 1, product_id := none, manufacturer_id := userM.id, count := 1,
               status := "minted", mint_type := "warehouse",
               blockchain_tx_hash := some tx }]
        ∧ (mint_warehouse_tags warehouseReq userM genCode genTok 1 4 (.ok tx) dbMain).1.tags
          = dbMain.tags ++
            [{ id := 4, tag_code := genCode 0, token_id := "TOKEN_" ++ genTok 0,
               blockchain_tx_hash := some tx, status := "unused", product_id := none,
               batch_id := 1 }]) := by
  refine ⟨rfl, rfl, rfl, ?_⟩
  intro tx
  exact ⟨rfl, rfl⟩

/-- C7 counterexample: on dbC7 the default product list query (no status
filter) returns the soft-deleted product, so inactive products are not
excluded from the default list. -/
theorem list_default_includes_inactive :
    (list_products none none userM dbC7).2 = .ok [inactiveProd]
    ∧ inactiveProd.status = "inactive" := ⟨rfl, rfl⟩

/-- C7 amended: deleting an owned product sets its status to inactive and
changes nothing else; the row remains fetchable by id by its owner; it is
excluded from a list query filtered to status active; but the default list
query (no status filter) still includes it. -/
theorem delete_product_soft_delete (id : Nat) (user : User) (db : DB)
    (product : Product)
    (hrole : user.role = "manufacturer")
    (hfind : db.products.find? (fun p => p.id == id && p.manufacturer_id == user.id)
       = some product) :
    List.Forall₂ (fun p p' =>
        if p.id = product.id then p' = { p with status := "inactive" } else p' = p)
      db.products ((delete_product id user db).1).products
    ∧ ((delete_product id user db).1).users = db.users
    ∧ ((delete_product id user db).1).tags = db.tags
    ∧ ((delete_product id user db).1).batches = db.batches
    ∧ ((delete_product id user db).1).scans = db.scans
    ∧ ((delete_product id user db).1).resetTokens = db.resetTokens
    ∧ (get_product id user ((delete_product id user db).1)).2
        = .ok { product with status := "inactive" }
    ∧ (∀ l, (list_products (some "active") none user ((delete_product id user db).1)).2
          = .ok l → { product with status := "inactive" } ∉ l)
    ∧ (∀ l, (list_products none none user ((delete_product id user db).1)).2
          = .ok l → { product with status := "inactive" } ∈ l) := by
  have hne : ¬ (user.role ≠ "manufacturer") := by simp [hrole]
  have hqp := List.find?_some hfind
  have hmem := List.mem_of_find?_eq_some hfind
  have hdel : delete_product id user db
      = ({ db with products := db.products.map (softDeleteRow product.id) }, .ok ()) := by
    unfold delete_product
    rw [if_neg hne, hfind]
  have hq : (fun p => p.id == id && p.manufacturer_id == user.id) ∘ softDeleteRow product.id
      = (fun p => p.id == id && p.manufacturer_id == user.id) := by
    funext p
    unfold softDeleteRow
    by_cases h : p.id = product.id <;> simp [h]
  have hgp : softDeleteRow product.id product = { product with status := "inactive" } := by
    unfold softDeleteRow
    simp
  refine ⟨?_, ?_, ?_, ?_, ?_, ?_, ?_, ?_, ?_⟩
  · rw [hdel]
    rw [List.forall₂_map_right_iff, List.forall₂_same]
    intro p hp
    by_cases h : p.id = product.id
    · rw [if_pos h]
      unfold softDeleteRow
      simp [h]
    · rw [if_neg h]
      unfold softDeleteRow
      simp [h]
  · rw [hdel]
  · rw [hdel]
  · rw [hdel]
  · rw [hdel]
  · rw [hdel]
  · rw [hdel]
    unfold get_product
    rw [if_neg hne]
    simp only
    rw [List.find?_map, hq, hfind]
    simp [hgp]
  · intro l hl
    rw [hdel] at hl
    unfold list_products at hl
    rw [if_neg hne] at hl
    simp only [Except.ok.injEq] at hl
    subst hl
    intro hmeml
    have := (List.mem_filter.mp hmeml).2
    simp at this
  · intro l hl
    rw [hdel] at hl
    unfold list_products at hl
    rw [if_neg hne] at hl
    simp only [Except.ok.injEq] at hl
    subst hl
    refine List.mem_filter.mpr ⟨?_, ?_⟩
    · rw [← hgp]
      exact List.mem_map_of_mem _ hmem
    · simp only [hgp]
      simp only [Bool.and_eq_true] at hqp
      simpa using hqp.2

/-- C7 amended witness: deleting product 1 of dbMain leaves it fetchable by
id with status inactive. -/
theorem delete_product_soft_delete_witness :
    (get_product 1 userM ((delete_product 1 userM dbMain).1)).2
      = .ok { prodP with status := "inactive" } :=
  (delete_product_soft_delete 1 userM dbMain prodP rfl rfl).2.2.2.2.2.2.1

/-- C8: under referential integrity (every reset token points to an existing
user) and the unique constraint on token strings, resetPassword succeeds
exactly when an unexpired row with the given token exists; on success the
users password hash is rewritten and that token row is deleted, so a second
call with the same token fails; in every other case the call fails with 400
and the store is unchanged. -/
theorem reset_password_single_use (token new_password : String) (now : Nat)
    (hash : String → String) (db : DB)
    (hfk : ∀ t ∈ db.resetTokens, ∃ u ∈ db.users, u.id = t.user_id)
    (htok : (db.resetTokens.map PasswordResetToken.token).Nodup) :
    ((∃ r ∈ db.resetTokens, r.token = token ∧ ¬ r.expires_at < now) ↔
       ∃ m, (reset_password token new_password now hash db).2 = .ok m)
    ∧ (∀ r ∈ db.resetTokens, r.token = token → ¬ r.expires_at < now →
        ((reset_password token new_password now hash db).1.users
           = db.users.map (fun u =>
               if u.id == r.user_id then { u with password := hash new_password }
               else u))
        ∧ (∀ r2 ∈ (reset_password token new_password now hash db).1.resetTokens,
             r2.token ≠ token)
        ∧ (reset_password token new_password now hash
             ((reset_password token new_password now hash db).1)).2
            = .error ⟨400, "Invalid or expired token"⟩)
    ∧ (¬ (∃ r ∈ db.resetTokens, r.token = token ∧ ¬ r.expires_at < now) →
        reset_password token new_password now hash db
          = (db, .error ⟨400, "Invalid or expired token"⟩)) := by
  cases hfind : db.resetTokens.find? (fun t => t.token == token) with
  | none =>
      have hnone := List.find?_eq_none.mp hfind
      have hno : ¬ (∃ r ∈ db.resetTokens, r.token = token ∧ ¬ r.expires_at < now) := by
        rintro ⟨r, hr, hrt, _⟩
        exact absurd (by simp [hrt]) (hnone r hr)
      have hres : reset_password token new_password now hash db
          = (db, .error ⟨400, "Invalid or expired token"⟩) := by
        unfold reset_password
        rw [hfind]
      refine ⟨?_, ?_, fun _ => hres⟩
      · constructor
        · intro h; exact absurd h hno
        · rintro ⟨m, hm⟩
          rw [hres] at hm
          cases hm
      · intro r hr hrt _
        exact absurd (by simp [hrt]) (hnone r hr)
  | some rec_ =>
      have hrecmem := List.mem_of_find?_eq_some hfind
      have hrectok : rec_.token = token := by simpa using List.find?_some hfind
      have huniq : ∀ r ∈ db.resetTokens, r.token = token → r = rec_ := by
        intro r hr hrt
        exact List.inj_on_of_nodup_map htok hr hrecmem (hrt.trans hrectok.symm)
      by_cases hexp : rec_.expires_at < now
      · have hres : reset_password token new_password now hash db
            = (db, .error ⟨400, "Invalid or expired token"⟩) := by
          unfold reset_password
          rw [hfind]
          simp only [hexp, if_true]
        have hno : ¬ (∃ r ∈ db.resetTokens, r.token = token ∧ ¬ r.expires_at < now) := by
          rintro ⟨r, hr, hrt, hnex⟩
          rw [huniq r hr hrt] at hnex
          exact hnex hexp
        refine ⟨?_, ?_, fun _ => hres⟩
        · constructor
          · intro h; exact absurd h hno
          · rintro ⟨m, hm⟩
            rw [hres] at hm
            cases hm
        · intro r hr hrt hnex
          rw [huniq r hr hrt] at hnex
          exact absurd hexp hnex
      · obtain ⟨u, hu, huid⟩ := hfk rec_ hrecmem
        have hUs : (db.users.find? (fun x => x.id == rec_.user_id)).isSome :=
          List.find?_isSome.mpr ⟨u, hu, by simp [huid]⟩
        obtain ⟨usr, husr⟩ := Option.isSome_iff_exists.mp hUs
        have husrid : usr.id = rec_.user_id := by simpa using List.find?_some husr
        have hres : reset_password token new_password now hash db
            = ({ db with
                  users := db.users.map (fun x =>
                    if x.id == usr.id then { x with password := hash new_password }
                    else x),
                  resetTokens := db.resetTokens.filter (fun t => !(t.id == rec_.id)) },
               .ok "Password reset successfully") := by
          unfold reset_password
          rw [hfind]
          simp only [hexp, if_false, husr]
        have htokgone : ∀ r2 ∈ (reset_password token new_password now hash db).1.resetTokens,
            r2.token ≠ token := by
          rw [hres]
          show ∀ r2 ∈ db.resetTokens.filter (fun t => !(t.id == rec_.id)), r2.token ≠ token
          intro r2 hr2 hr2t
          obtain ⟨hr2m, hr2ne⟩ := List.mem_filter.mp hr2
          rw [huniq r2 hr2m hr2t] at hr2ne
          simp at hr2ne
        refine ⟨?_, ?_, ?_⟩
        · constructor
          · intro _
            exact ⟨"Password reset successfully", by rw [hres]⟩
          · intro _
            exact ⟨rec_, hrecmem, hrectok, hexp⟩
        · intro r hr hrt hnex
          have hrrec : r = rec_ := huniq r hr hrt
          subst hrrec
          refine ⟨?_, htokgone, ?_⟩
          · rw [hres]
            simp only [husrid]
          · have hnone2 : ((reset_password token new_password now hash db).1.resetTokens).find?
                (fun t => t.token == token) = none := by
              apply List.find?_eq_none.mpr
              intro x hx
              simpa using htokgone x hx
            rw [hres] at hnone2 ⊢
            unfold reset_password
            rw [hnone2]
        · intro h
          exact absurd ⟨rec_, hrecmem, hrectok, hexp⟩ h

/-- C8 witness: on dbTok the unexpired token resets the password and a
second call with the same token fails with 400. -/
theorem reset_password_single_use_witness :
    (reset_password "rst-1" "npw" 500 hashW
       ((reset_password "rst-1" "npw" 500 hashW dbTok).1)).2
      = .error ⟨400, "Invalid or expired token"⟩ :=
  ((reset_password_single_use "rst-1" "npw" 500 hashW dbTok (by decide)
      (by decide)).2.1 tokR (by decide) rfl (by decide)).2.2

/-- C4: each verification endpoint, called on an existing tag, appends
exactly one Scan row whose stored result equals the result returned on
success; a call with an unknown code fails with 404 and changes nothing;
and no modelled operation ever updates or deletes existing Scan rows: all
non-verification operations leave the scan ledger exactly as it was. -/
theorem scan_ledger_append_only (db : DB) :
    (∀ code loc sid, (db.tags.find? (fun t => t.tag_code == code)).isSome →
       ∃ s : Scan, (verify_tag_public code loc sid db).1.scans = db.scans ++ [s]
         ∧ ∀ r, (verify_tag_public code loc sid db).2 = .ok r →
             r.verification_result = s.verification_result)
    ∧ (∀ code loc sid chain, (db.tags.find? (fun t => t.tag_code == code)).isSome →
       ∃ s : Scan, (verify_tag_auth code loc sid chain db).1.scans = db.scans ++ [s]
         ∧ ∀ r, (verify_tag_auth code loc sid chain db).2 = .ok r →
             r.verification_result = s.verification_result)
    ∧ (∀ code loc sid, db.tags.find? (fun t => t.tag_code == code) = none →
       verify_tag_public code loc sid db = (db, .error ⟨404, "Tag not found"⟩))
    ∧ (∀ code loc sid chain, db.tags.find? (fun t => t.tag_code == code) = none →
       verify_tag_auth code loc sid chain db = (db, .error ⟨404, "Tag not found."⟩))
    ∧ (∀ u hs nid, (register_user u hs nid db).1.scans = db.scans)
    ∧ (∀ email tok nid now, (request_password_reset email tok nid now db).1.scans = db.scans)
    ∧ (∀ tok pw now hs, (reset_password tok pw now hs db).1.scans = db.scans)
    ∧ (∀ pid cnt usr, (assign_tags_to_product pid cnt usr db).1.scans = db.scans)
    ∧ (∀ req usr gc gt bid tid mr,
        (mint_warehouse_tags req usr gc gt bid tid mr db).1.scans = db.scans)
    ∧ (∀ req usr gc gt bid tid mr,
        (mint_direct_tags req usr gc gt bid tid mr db).1.scans = db.scans)
    ∧ (∀ st cat usr, (list_products st cat usr db).1.scans = db.scans)
    ∧ (∀ i usr, (get_product i usr db).1.scans = db.scans)
    ∧ (∀ i usr, (delete_product i usr db).1.scans = db.scans) := by
  refine ⟨?_, ?_, ?_, ?_, ?_, ?_, ?_, ?_, ?_, ?_, ?_, ?_, ?_⟩
  · intro code loc sid hsome
    obtain ⟨t, hfind⟩ := Option.isSome_iff_exists.mp hsome
    cases htp : tagProduct db t
    · simp only [verify_tag_public, hfind, htp]
      refine ⟨_, rfl, ?_⟩
      intro r hr
      cases hr
    · simp only [verify_tag_public, hfind, htp]
      refine ⟨_, rfl, ?_⟩
      intro r hr
      cases hr
      rfl
  · intro code loc sid chain hsome
    obtain ⟨t, hfind⟩ := Option.isSome_iff_exists.mp hsome
    cases htp : tagProduct db t
    · simp only [verify_tag_auth, hfind, htp]
      refine ⟨_, rfl, ?_⟩
      intro r hr
      cases hr
    · simp only [verify_tag_auth, hfind, htp]
      refine ⟨_, rfl, ?_⟩
      intro r hr
      cases hr
      rfl
  · intro code loc sid hnone
    unfold verify_tag_public
    rw [hnone]
  · intro code loc sid chain hnone
    unfold verify_tag_auth
    rw [hnone]
  · intro u hs nid
    unfold register_user
    cases db.users.find? (fun x => x.email == u.email) <;> rfl
  · intro email tok nid now
    unfold request_password_reset
    cases db.users.find? (fun x => x.email == email) <;> rfl
  · intro tok pw now hs
    unfold reset_password
    cases db.resetTokens.find? (fun t => t.token == tok) with
    | none => rfl
    | some tr =>
        by_cases hexp : tr.expires_at < now
        · simp only [hexp, if_true]
        · simp only [hexp, if_false]
          cases db.users.find? (fun x => x.id == tr.user_id) <;> rfl
  · intro pid cnt usr
    unfold assign_tags_to_product
    by_cases hr : usr.role ≠ "manufacturer"
    · rw [if_pos hr]
    · rw [if_neg hr]
      cases db.products.find? (fun p => p.id == pid && p.manufacturer_id == usr.id) with
      | none => rfl
      | some product =>
          by_cases hlt : ((db.tags.filter (fun t => t.status == "unused")).take cnt).length < cnt
          · simp only [hlt, if_true]
          · simp only [hlt, if_false]
  · intro req usr gc gt bid tid mr
    unfold mint_warehouse_tags
    by_cases hm : req.mint_type ≠ "warehouse"
    · rw [if_pos hm]
    · rw [if_neg hm]
      cases mr <;> rfl
  · intro req usr gc gt bid tid mr
    unfold mint_direct_tags
    by_cases hm : (req.mint_type ≠ "direct" || req.product_id.isNone) = true
    · rw [if_pos hm]
    · rw [if_neg hm]
      cases mr <;> rfl
  · intro st cat usr
    unfold list_products
    by_cases hr : usr.role ≠ "manufacturer"
    · rw [if_pos hr]
    · rw [if_neg hr]
  · intro i usr
    unfold get_product
    by_cases hr : usr.role ≠ "manufacturer"
    · rw [if_pos hr]
    · rw [if_neg hr]
      cases db.products.find? (fun p => p.id == i && p.manufacturer_id == usr.id) <;> rfl
  · intro i usr
    unfold delete_product
    by_cases hr : usr.role ≠ "manufacturer"
    · rw [if_pos hr]
    · rw [if_neg hr]
      cases db.products.find? (fun p => p.id == i && p.manufacturer_id == usr.id) <;> rfl

/-- C4 witness: the public scan of the known code tcode-1 on dbMain appends
exactly one scan row recording the returned result. -/
theorem scan_ledger_append_only_witness :
    ∃ s : Scan, (verify_tag_public "tcode-1" none 12 dbMain).1.scans
        = dbMain.scans ++ [s]
      ∧ ∀ r, (verify_tag_public "tcode-1" none 12 dbMain).2 = .ok r →
          r.verification_result = s.verification_result :=
  (scan_ledger_append_only dbMain).1 "tcode-1" none 12 (by decide)

end TrueTag
